import Mathlib

/-
  Verification development for the osi_pse Linux process-lifecycle tracker
  (src/panda/plugins/osi_pse/osi_pse_linux.cpp).

  The dispatcher handlers (handle_kill_return, handle_sys_return,
  handle_sys_enter, asid_changed_linux, uninit_osi_pse_linux) are shallowly
  embedded from the C++ source, with the default build configuration
  (OSI_PSE_ALT_VFORK undefined).  The supporting data structures
  (LPTracker, process_info_t, LPFSM) live in headers that are not part of
  the sources at hand; their operations are modelled from the specification
  and are marked "Modelled from the spec:" below.

  A C assert() whose condition fails aborts the analysis; this is embedded
  as the `fatal` flag of a step outcome.  Mutations performed before the
  failing assertion are reflected in the resulting state, mutations after
  it are not.
-/

set_option maxHeartbeats 1600000

namespace OsiPse

/-- Lifecycle FSM states (LPFSM::State in the source). -/
inductive St
  | INIT
  | RUN
  | CLN
  | VFP
  | VFC
  | EXE
  | KILL
  | END
  | KERN
  deriving DecidableEq

/-- Snapshot of a process handle: stable task identity, pid, parent pid and
the active address-space id (spec section 3, ProcessHandle). -/
structure ProcessHandle where
  taskd : Nat
  pid : Int
  ppid : Int
  asid : Nat
  deriving DecidableEq

/-- The kernel / no-process address-space id sentinel (ASID0 in the source). -/
def ASID0 : Nat := 0

/-- One tracked process (process_info_t): handle, FSM state, saved previous
state, transient fork-partner links (stored as table keys, i.e. task
identities), and the start-notification flag. -/
structure ProcessRecord where
  handle : ProcessHandle
  state : St
  prev : St
  vforkp : Option Nat
  vforkc : Option Nat
  started : Bool
  deriving DecidableEq

/-- Association-list lookup by key (first match). -/
def alookup {α : Type} (k : Nat) : List (Nat × α) → Option α
  | [] => none
  | (k', v) :: rest => if k = k' then some v else alookup k rest

/-- Association-list insert-or-assign by key. -/
def aset {α : Type} (k : Nat) (v : α) : List (Nat × α) → List (Nat × α)
  | [] => [(k, v)]
  | (k', v') :: rest => if k = k' then (k, v) :: rest else (k', v') :: aset k v rest

/-- Association-list erase by key (first match). -/
def aerase {α : Type} (k : Nat) : List (Nat × α) → List (Nat × α)
  | [] => []
  | (k', v') :: rest => if k = k' then rest else (k', v') :: aerase k rest

/-- The process table: primary index taskd to record, secondary index
asid to taskd (LPTracker's ps and asids maps). -/
structure LPTracker where
  ps : List (Nat × ProcessRecord)
  asids : List (Nat × Nat)
  deriving DecidableEq

/-- Global tracker state: the table plus the consistency checker's
predicted next task (taskd_guess in the source). -/
structure Engine where
  lpt : LPTracker
  taskd_guess : Nat
  deriving DecidableEq

/-- A lifecycle notification delivered to subscribers. -/
inductive Notif
  | started (h : ProcessHandle)
  | ended (h : ProcessHandle)
  deriving DecidableEq

/-- Outcome of one dispatcher event: resulting engine, notifications fired
during the event (in order), and whether a fatal assertion was hit. -/
structure StepOut where
  eng : Engine
  out : List Notif
  fatal : Bool
  deriving DecidableEq

/-- LPFSM::save_state — remember the current state as the previous one. -/
def save_state (p : ProcessRecord) : ProcessRecord := { p with prev := p.state }

/-- Modelled from the spec: process_info_t::run_cb_start (header not under
src/) fires on_process_start once per image; the start_notified flag of the
spec's ProcessRecord guards redelivery.  Record part. -/
def cbStartRec (p : ProcessRecord) : ProcessRecord :=
  if p.started then p else { p with started := true }

/-- Modelled from the spec: notification part of run_cb_start. -/
def cbStartOut (p : ProcessRecord) : List Notif :=
  if p.started then [] else [Notif.started p.handle]

/-- Modelled from the spec: process_info_t::run_cb_end fires
on_process_end for the record's current handle. -/
def cbEndOut (p : ProcessRecord) : List Notif := [Notif.ended p.handle]

/-- Modelled from the spec: a freshly discovered task's record; kernel
contexts (asid ASID0) enter as KERN, user tasks as INIT; start
notification pending, no fork links. -/
def freshRec (h : ProcessHandle) : ProcessRecord :=
  { handle := h
    state := if h.asid = ASID0 then St.KERN else St.INIT
    prev := if h.asid = ASID0 then St.KERN else St.INIT
    vforkp := none
    vforkc := none
    started := false }

/-- Modelled from the spec: process_info_t::reset(cpu, h) re-initializes a
record from a fresh introspected handle: INIT, start deferred, links
cleared. -/
def resetH (h : ProcessHandle) : ProcessRecord :=
  { handle := h
    state := St.INIT
    prev := St.INIT
    vforkp := none
    vforkc := none
    started := false }

/-- Modelled from the spec: process_info_t::reset(cpu, taskd, asid, true)
rewrites the handle in place: same task identity, pid and parent pid kept,
new asid; start notification pending again; links cleared. -/
def resetTA (p : ProcessRecord) (taskd asid : Nat) : ProcessRecord :=
  { handle := { taskd := taskd, pid := p.handle.pid, ppid := p.handle.ppid, asid := asid }
    state := St.INIT
    prev := p.state
    vforkp := none
    vforkc := none
    started := false }

/-- Write a record into the primary index. -/
def updRec (t : LPTracker) (k : Nat) (p : ProcessRecord) : LPTracker :=
  { t with ps := aset k p t.ps }

/-- LPTracker::AddASIDMapping / UpdateASIDMapping — point an asid-index
entry at a task. -/
def setAsid (t : LPTracker) (a tk : Nat) : LPTracker :=
  { t with asids := aset a tk t.asids }

/-- Remove an asid-index entry (asids.erase). -/
def eraseAsid (t : LPTracker) (a : Nat) : LPTracker :=
  { t with asids := aerase a t.asids }

/-- Record lookup by task identity. -/
def getRec (t : LPTracker) (k : Nat) : Option ProcessRecord := alookup k t.ps

/-- Modelled from the spec: the table after the lazy-creation step of
LPTracker::procinfo_current — a previously unseen task gets a fresh
record the first time it is observed. -/
def piTable (t : LPTracker) (h : ProcessHandle) : LPTracker :=
  match alookup h.taskd t.ps with
  | some _ => t
  | none => updRec t h.taskd (freshRec h)

/-- Whether the current task was already tracked (the pexists flag of
GET_PROCESS_INFO). -/
def piExists (t : LPTracker) (h : ProcessHandle) : Bool :=
  (alookup h.taskd t.ps).isSome

/-- LPTracker::procinfo_by_pid — first record whose pid matches, with its
key; absence makes the callers' reference acquisition fatal. -/
def findPid (pid : Int) : List (Nat × ProcessRecord) → Option (Nat × ProcessRecord)
  | [] => none
  | (k, p) :: rest => if p.handle.pid = pid then some (k, p) else findPid pid rest

/-- Modelled from the spec: scan of the introspection snapshot for a
not-yet-tracked process with the given parent pid. -/
def findNewByPPID (t : LPTracker) (ppid : Int) : List ProcessHandle → Option ProcessHandle
  | [] => none
  | h :: rest =>
      if h.ppid = ppid ∧ alookup h.taskd t.ps = none then some h
      else findNewByPPID t ppid rest

/-- Modelled from the spec: LPTracker::AddNewByPPID (header not under src/)
looks up a not-yet-tracked process by parent pid in the introspection
snapshot; whichever event observes it first creates the child record
(INIT, started — its start notification is delivered) and indexes its
asid.  Returns the new key, the updated table and the notifications, or
none when no such process exists yet. -/
def AddNewByPPID (t : LPTracker) (ppid : Int) (os : List ProcessHandle) :
    Option (Nat × LPTracker × List Notif) :=
  match findNewByPPID t ppid os with
  | none => none
  | some h =>
      some (h.taskd,
            setAsid (updRec t h.taskd { freshRec h with started := true }) h.asid h.taskd,
            [Notif.started h])

/-- Modelled from the spec: LPTracker::AddNewByASID resamples the
introspection collaborator for an address space: no process yields none; an
already tracked task (e.g. an ended process whose asid was not yet cleared)
is returned as is; otherwise a record is created (its start notification is
left to the caller) and the asid indexed. -/
def AddNewByASID (t : LPTracker) (oracle : Option ProcessHandle) :
    Option Nat × LPTracker :=
  match oracle with
  | none => (none, t)
  | some h =>
      match alookup h.taskd t.ps with
      | some _ => (some h.taskd, t)
      | none => (some h.taskd, setAsid (updRec t h.taskd (freshRec h)) h.asid h.taskd)

/-- Modelled from the spec: LPTracker::initialize bulk-populates one record
per live process enumerated by the introspection collaborator and indexes
each asid (spec section 4.2 and Scenario A). -/
def lptInit (live : List ProcessHandle) : LPTracker :=
  live.foldl (fun t h => setAsid (updRec t h.taskd (freshRec h)) h.asid h.taskd) ⟨[], []⟩

/-- Engine state right after trace initialization. -/
def engInit (live : List ProcessHandle) : Engine := ⟨lptInit live, ASID0⟩

/-- The system calls distinguished by the handlers (scnum values used in
the source); `other` stands for any syscall number outside that set. -/
inductive Sysc
  | clone
  | vfork
  | execve
  | exit_group
  | sys_exit
  | wait4
  | waitpid
  | dup2
  | close
  | brk
  | other (n : Nat)
  deriving DecidableEq

/-- One dispatcher event, carrying the data the collaborating layers
provide: the introspected current handle, the syscall id, the
introspection snapshot used for parent-pid lookups (os), and the
introspection answer for an asid resample (byAsid). -/
inductive Event
  | sysEnter (h : ProcessHandle) (sc : Sysc)
  | sysReturn (h : ProcessHandle) (sc : Sysc) (os : List ProcessHandle)
  | killReturn (h : ProcessHandle) (pid sig ret : Int)
  | asidChange (h : ProcessHandle) (current next : Nat)
      (os : List ProcessHandle) (byAsid : Option ProcessHandle)
  deriving DecidableEq

/-- handle_kill_return (osi_pse_linux.cpp:137-168): on a successful kill
with signal 9 or 2 and a positive target pid, the target (looked up by
pid) is moved to KILL with its previous state saved.  The return value and
signal are checked before any table access; a non-positive pid, an
untracked caller or a missing target are fatal assertions. -/
def handle_kill_return (e : Engine) (h : ProcessHandle) (pid sig ret : Int) : StepOut :=
  if ret ≠ 0 ∨ ¬(sig = 9 ∨ sig = 2) then ⟨e, [], false⟩
  else if pid ≤ 0 then ⟨e, [], true⟩
  else
    let t := piTable e.lpt h
    if piExists e.lpt h then
      match findPid pid t.ps with
      | none => ⟨{ e with lpt := t }, [], true⟩
      | some (tk, q) =>
          ⟨{ e with lpt := updRec t tk { q with prev := q.state, state := St.KILL } }, [], false⟩
    else ⟨{ e with lpt := t }, [], true⟩

/-- Return-of-sys_vfork handling (handle_sys_return, INIT/END states,
osi_pse_linux.cpp:202-274).  The return is delivered in the created
child's context; an existing record must be a terminal one and is reset in
place; the parent is found through the shared asid's index entry, the
entry is re-pointed at the child, and the pair is linked VFC/VFP.  Any
other syscall returning in these states is fatal. -/
def handleVforkReturn (e : Engine) (t : LPTracker) (pex : Bool) (h : ProcessHandle)
    (p : ProcessRecord) (sc : Sysc) : StepOut :=
  match sc with
  | Sysc.vfork =>
      if pex ∧ p.state ≠ St.END then ⟨{ e with lpt := t }, [], true⟩
      else
        let pchild := if pex then resetH h else p
        let t1 := updRec t h.taskd pchild
        match alookup pchild.handle.asid t1.asids with
        | none => ⟨{ e with lpt := t1 }, [], true⟩
        | some ptk =>
            if ptk = pchild.handle.taskd then ⟨{ e with lpt := t1 }, [], true⟩
            else
              match getRec t1 ptk with
              | none => ⟨{ e with lpt := t1 }, [], true⟩
              | some pparent =>
                  if pchild.handle.asid ≠ pparent.handle.asid then ⟨{ e with lpt := t1 }, [], true⟩
                  else if pchild.handle.taskd = pparent.handle.taskd then
                    ⟨{ e with lpt := t1 }, [], true⟩
                  else
                    let t2 := setAsid t1 pchild.handle.asid pchild.handle.taskd
                    if e.taskd_guess ≠ pparent.handle.taskd then ⟨{ e with lpt := t2 }, [], true⟩
                    else
                      let c2 : ProcessRecord :=
                        { pchild with state := St.VFC, vforkp := some ptk, vforkc := none }
                      let pp2 : ProcessRecord :=
                        { pparent with state := St.VFP, vforkp := none, vforkc := some pchild.handle.taskd }
                      ⟨{ e with lpt := updRec (updRec t2 h.taskd c2) ptk pp2 }, [], false⟩
  | _ => ⟨{ e with lpt := t }, [], true⟩

/-- handle_sys_return (osi_pse_linux.cpp:179-283): a CLN parent attempts
child materialization by parent pid; INIT/END records accept a vfork
return; every other state treats the return as a no-op. -/
def handle_sys_return (e : Engine) (h : ProcessHandle) (sc : Sysc)
    (os : List ProcessHandle) : StepOut :=
  let pex := piExists e.lpt h
  let t := piTable e.lpt h
  match getRec t h.taskd with
  | none => ⟨{ e with lpt := t }, [], true⟩
  | some p =>
      match p.state with
      | St.CLN =>
          match AddNewByPPID t p.handle.pid os with
          | some (_, t2, ns) =>
              ⟨{ e with lpt := updRec t2 h.taskd { p with state := St.RUN } }, ns, false⟩
          | none => ⟨{ e with lpt := t }, [], false⟩
      | St.INIT => handleVforkReturn e t pex h p sc
      | St.END => handleVforkReturn e t pex h p sc
      | _ => ⟨{ e with lpt := t }, [], false⟩

/-- Syscall entry for INIT/RUN/KILL records (handle_sys_enter,
osi_pse_linux.cpp:304-351): INIT first delivers a still-pending start
notification and becomes RUN, KILL survives back to RUN; then clone,
execve, exit_group and sys_exit reclassify the record (exit paths remove
the asid-index entry and fire the end notification; sys_exit additionally
aborts as untested). -/
def seNormal (e : Engine) (t : LPTracker) (k : Nat) (p : ProcessRecord) (sc : Sysc) : StepOut :=
  let lateOut := if p.state = St.INIT then cbStartOut p else []
  let p1 := if p.state = St.INIT then { cbStartRec p with state := St.RUN }
            else if p.state = St.KILL then { p with state := St.RUN }
            else p
  match sc with
  | Sysc.clone => ⟨{ e with lpt := updRec t k { p1 with state := St.CLN } }, lateOut, false⟩
  | Sysc.execve => ⟨{ e with lpt := updRec t k { p1 with state := St.EXE } }, lateOut, false⟩
  | Sysc.exit_group =>
      if (alookup p1.handle.asid t.asids).isSome then
        ⟨{ e with lpt := updRec (eraseAsid t p1.handle.asid) k { p1 with state := St.END } },
         lateOut ++ cbEndOut p1, false⟩
      else ⟨{ e with lpt := updRec t k { p1 with state := St.END } }, lateOut, true⟩
  | Sysc.sys_exit =>
      if (alookup p1.handle.asid t.asids).isSome then
        ⟨{ e with lpt := updRec (eraseAsid t p1.handle.asid) k { p1 with state := St.END } },
         lateOut ++ cbEndOut p1, true⟩
      else ⟨{ e with lpt := updRec t k { p1 with state := St.END } }, lateOut, true⟩
  | _ => ⟨{ e with lpt := updRec t k p1 }, lateOut, false⟩

/-- Syscall entry for a VFP record (handle_sys_enter,
osi_pse_linux.cpp:353-399).  The links are sanity-checked; the child's
ppid field is written by the (assignment) assertion in the source, fatal
only when the parent pid is zero.  wait4/waitpid stay in VFP; exit paths
require the child in RUN/EXE and end the parent; any other syscall
resolves the fork: parent back to RUN, the parent's links cleared, and the
asid index restored to the parent. -/
def seVFP (e : Engine) (t : LPTracker) (k : Nat) (p : ProcessRecord) (sc : Sysc) : StepOut :=
  if p.vforkp ≠ none then ⟨{ e with lpt := t }, [], true⟩
  else
    match p.vforkc with
    | none => ⟨{ e with lpt := t }, [], true⟩
    | some ck =>
        match getRec t ck with
        | none => ⟨{ e with lpt := t }, [], true⟩
        | some c0 =>
            let c := { c0 with handle := { c0.handle with ppid := p.handle.pid } }
            let t1 := updRec t ck c
            if p.handle.pid = 0 then ⟨{ e with lpt := t1 }, [], true⟩
            else
              match sc with
              | Sysc.wait4 => ⟨{ e with lpt := t1 }, [], false⟩
              | Sysc.waitpid => ⟨{ e with lpt := t1 }, [], false⟩
              | Sysc.exit_group =>
                  if c.state = St.RUN ∨ c.state = St.EXE then
                    if (alookup p.handle.asid t1.asids).isSome then
                      let t2 := updRec (eraseAsid t1 p.handle.asid) k { p with state := St.END }
                      ⟨{ e with lpt := t2 }, cbEndOut p, false⟩
                    else ⟨{ e with lpt := updRec t1 k { p with state := St.END } }, [], true⟩
                  else ⟨{ e with lpt := t1 }, [], true⟩
              | Sysc.sys_exit =>
                  if c.state = St.RUN ∨ c.state = St.EXE then
                    if (alookup p.handle.asid t1.asids).isSome then
                      let t2 := updRec (eraseAsid t1 p.handle.asid) k { p with state := St.END }
                      ⟨{ e with lpt := t2 }, cbEndOut p, true⟩
                    else ⟨{ e with lpt := updRec t1 k { p with state := St.END } }, [], true⟩
                  else ⟨{ e with lpt := t1 }, [], true⟩
              | _ =>
                  if c.state = St.RUN ∨ c.state = St.EXE then
                    let pr : ProcessRecord := { p with state := St.RUN, vforkp := none, vforkc := none }
                    ⟨{ e with lpt := setAsid (updRec t1 k pr) c.handle.asid p.handle.taskd }, [], false⟩
                  else ⟨{ e with lpt := t1 }, [], true⟩

/-- Syscall entry for a VFC record (handle_sys_enter,
osi_pse_linux.cpp:401-427): dup2/close are whitelisted, execve moves to
EXE, anything else is merely warned (state unchanged). -/
def seVFC (e : Engine) (t : LPTracker) (k : Nat) (p : ProcessRecord) (sc : Sysc) : StepOut :=
  if p.vforkc ≠ none then ⟨{ e with lpt := t }, [], true⟩
  else
    match p.vforkp with
    | none => ⟨{ e with lpt := t }, [], true⟩
    | some pk =>
        match getRec t pk with
        | none => ⟨{ e with lpt := t }, [], true⟩
        | some par =>
            let p1 := { p with handle := { p.handle with ppid := par.handle.pid } }
            let t1 := updRec t k p1
            if par.handle.pid = 0 then ⟨{ e with lpt := t1 }, [], true⟩
            else
              match sc with
              | Sysc.dup2 => ⟨{ e with lpt := t1 }, [], false⟩
              | Sysc.close => ⟨{ e with lpt := t1 }, [], false⟩
              | Sysc.execve =>
                  ⟨{ e with lpt := updRec t1 k { p1 with state := St.EXE } }, [], false⟩
              | _ => ⟨{ e with lpt := t1 }, [], false⟩

/-- Syscall entry for an EXE record (handle_sys_enter,
osi_pse_linux.cpp:429-477): a repeated execve is tolerated (with the
vfork parent, when linked, required to still be VFP); exit paths end the
record; sys_brk and everything else hit fail-fast assertions. -/
def seEXE (e : Engine) (t : LPTracker) (k : Nat) (p : ProcessRecord) (sc : Sysc) : StepOut :=
  match sc with
  | Sysc.execve =>
      match p.vforkp with
      | none => ⟨{ e with lpt := t }, [], false⟩
      | some pk =>
          match getRec t pk with
          | none => ⟨{ e with lpt := t }, [], true⟩
          | some par =>
              if par.state = St.VFP then ⟨{ e with lpt := t }, [], false⟩
              else ⟨{ e with lpt := t }, [], true⟩
  | Sysc.exit_group =>
      if (alookup p.handle.asid t.asids).isSome then
        ⟨{ e with lpt := updRec (eraseAsid t p.handle.asid) k { p with state := St.END } },
         cbEndOut p, false⟩
      else ⟨{ e with lpt := updRec t k { p with state := St.END } }, [], true⟩
  | Sysc.sys_exit =>
      if (alookup p.handle.asid t.asids).isSome then
        ⟨{ e with lpt := updRec (eraseAsid t p.handle.asid) k { p with state := St.END } },
         cbEndOut p, true⟩
      else ⟨{ e with lpt := updRec t k { p with state := St.END } }, [], true⟩
  | _ => ⟨{ e with lpt := t }, [], true⟩

/-- handle_sys_enter (osi_pse_linux.cpp:294-491): the consistency checker
always leaves taskd_guess at the observed task; the record's state is
saved and the per-state entry handling dispatched.  A syscall entry from a
CLN, END or KERN record is a fatal assertion. -/
def handle_sys_enter (e : Engine) (h : ProcessHandle) (sc : Sysc) : StepOut :=
  let t := piTable e.lpt h
  match getRec t h.taskd with
  | none => ⟨{ lpt := t, taskd_guess := h.taskd }, [], true⟩
  | some p0 =>
      let e1 : Engine := { lpt := e.lpt, taskd_guess := h.taskd }
      let p := save_state p0
      let t1 := updRec t h.taskd p
      match p.state with
      | St.INIT => seNormal e1 t1 h.taskd p sc
      | St.RUN => seNormal e1 t1 h.taskd p sc
      | St.KILL => seNormal e1 t1 h.taskd p sc
      | St.VFP => seVFP e1 t1 h.taskd p sc
      | St.VFC => seVFC e1 t1 h.taskd p sc
      | St.EXE => seEXE e1 t1 h.taskd p sc
      | _ => ⟨{ e1 with lpt := t1 }, [], true⟩

/-- Context switch while the scheduled-out record is in KERN state
(asid_changed_linux, osi_pse_linux.cpp:521-564): an indexed next asid is
expected; an unknown one is resampled — no process or an ended process is
tolerated, a new process requires a parent mid-clone (which then flips
CLN to RUN and the child start fires); otherwise fail fast. -/
def acKERN (t : LPTracker) (next : Nat) (byAsid : Option ProcessHandle) :
    LPTracker × Option Nat × List Notif × Bool :=
  match alookup next t.asids with
  | some tk =>
      match getRec t tk with
      | none => (t, none, [], true)
      | some _ => (t, some tk, [], false)
  | none =>
      match AddNewByASID t byAsid with
      | (none, t1) => (t1, none, [], false)
      | (some nk, t1) =>
          match getRec t1 nk with
          | none => (t1, none, [], true)
          | some pn =>
              if pn.state = St.END then (t1, some nk, [], false)
              else
                match findPid pn.handle.ppid t1.ps with
                | none => (t1, some nk, [], true)
                | some (park, par) =>
                    if par.state = St.CLN then
                      (updRec (updRec t1 park { par with state := St.RUN }) nk (cbStartRec pn),
                       some nk, cbStartOut pn, false)
                    else (t1, some nk, [], true)

/-- Fallback lookup of the scheduled-in task when the CLN branch found no
(matching) clone child (asid_changed_linux, osi_pse_linux.cpp:590-606):
known asids are fine; an unknown asid here is a fail-fast assertion. -/
def acCLNfallback (t : LPTracker) (next : Nat) (byAsid : Option ProcessHandle)
    (acc : List Notif) : LPTracker × Option Nat × List Notif × Bool :=
  match alookup next t.asids with
  | some tk =>
      match getRec t tk with
      | none => (t, none, acc, true)
      | some _ => (t, some tk, acc, false)
  | none =>
      match AddNewByASID t byAsid with
      | (r, t1) => (t1, r, acc, true)

/-- Context switch while the scheduled-out record is in CLN state
(asid_changed_linux, osi_pse_linux.cpp:565-607): a same-asid switch does
nothing; otherwise child materialization by parent pid is attempted, a
found child flips the parent to RUN and (if it is the one scheduled in)
becomes the prediction. -/
def acCLN (t : LPTracker) (k : Nat) (p : ProcessRecord) (current next : Nat)
    (os : List ProcessHandle) (byAsid : Option ProcessHandle) :
    LPTracker × Option Nat × List Notif × Bool :=
  if next = current then (t, some k, [], false)
  else
    match AddNewByPPID t p.handle.pid os with
    | some (ck, t1, ns) =>
        let t2 := updRec t1 k { p with state := St.RUN }
        match getRec t2 ck with
        | none => (t2, none, ns, true)
        | some crec =>
            let t3 := updRec t2 ck (cbStartRec crec)
            let no := ns ++ cbStartOut crec
            if crec.handle.asid = next then (t3, some ck, no, false)
            else acCLNfallback t3 next byAsid no
    | none => acCLNfallback t next byAsid []

/-- Context switch while the scheduled-out record is in EXE state
(asid_changed_linux, osi_pse_linux.cpp:608-690).  A linked vfork parent
still in VFP is resolved to RUN with the asid index restored; the child is
then rewritten in place for its new address space and its start fires (the
transient image's end notification is compiled out in the default build).
Without a vfork link, an unknown next asid means exec succeeded
(end-notification, in-place rewrite, remap, start-notification), while a
known one means the exec has not finished and is only sanity-checked. -/
def acEXE (t : LPTracker) (k : Nat) (p : ProcessRecord) (h : ProcessHandle)
    (current next : Nat) : LPTracker × Option Nat × List Notif × Bool :=
  if p.handle.asid ≠ current then (t, none, [], true)
  else
    match p.vforkp with
    | some pk =>
        match getRec t pk with
        | none => (t, none, [], true)
        | some par =>
            let parFix : ProcessRecord :=
              { save_state par with state := St.RUN, vforkp := none, vforkc := none }
            let t1 := if par.state = St.VFP then
                        setAsid (updRec t pk parFix) p.handle.asid par.handle.taskd
                      else t
            let pc := resetTA p h.taskd next
            let t2 := setAsid (updRec t1 k pc) next h.taskd
            let t3 := updRec t2 k (cbStartRec pc)
            if pc.handle.ppid = par.handle.pid then (t3, some k, cbStartOut pc, false)
            else (t3, some k, cbStartOut pc, true)
    | none =>
        match alookup next t.asids with
        | none =>
            if (alookup p.handle.asid t.asids).isSome then
              let t1 := eraseAsid t p.handle.asid
              let pr := resetTA p h.taskd next
              let t2 := setAsid (updRec t1 k pr) next h.taskd
              let t3 := updRec t2 k (cbStartRec pr)
              (t3, some k, cbEndOut p ++ cbStartOut pr, false)
            else (t, none, [], true)
        | some tk =>
            match getRec t tk with
            | none => (t, none, [], true)
            | some pn =>
                if pn.state = St.END then (t, none, [], true)
                else if pn.handle.pid = p.handle.pid then (t, none, [], true)
                else (t, some tk, [], false)

/-- Context switch while the scheduled-out record is in END state
(asid_changed_linux, osi_pse_linux.cpp:691-732): a terminating process
(handle asid already ASID0) only looks up the next task, tolerating an
unknown one; a handle matching the scheduled-in asid is the
kworker-to-process promotion (record reset in place, start deferred);
anything else is a fail-fast assertion. -/
def acEND (t : LPTracker) (k : Nat) (p : ProcessRecord) (h : ProcessHandle) (next : Nat) :
    LPTracker × Option Nat × List Notif × Bool :=
  if h.asid = ASID0 then
    if p.handle.taskd ≠ h.taskd then (t, none, [], true)
    else
      match alookup next t.asids with
      | some tk =>
          match getRec t tk with
          | none => (t, none, [], true)
          | some _ => (t, some tk, [], false)
      | none => (t, none, [], false)
  else if h.asid = next then
    (setAsid (updRec t k (resetH h)) h.asid h.taskd, some k, [], false)
  else (t, none, [], true)

/-- Shared tail of the RUN/KILL/default context-switch branch
(asid_changed_linux, osi_pse_linux.cpp:745-767): the scheduled-in task is
expected to be indexed; after a KILL-to-END confirmation kernel code may
follow (unknown asid tolerated); otherwise an unknown asid is a fail-fast
assertion. -/
def acDefault2 (t : LPTracker) (p : ProcessRecord) (next : Nat)
    (byAsid : Option ProcessHandle) (acc : List Notif) :
    LPTracker × Option Nat × List Notif × Bool :=
  match alookup next t.asids with
  | some tk =>
      match getRec t tk with
      | none => (t, none, acc, true)
      | some _ => (t, some tk, acc, false)
  | none =>
      if p.state = St.END then (t, none, acc, false)
      else
        match AddNewByASID t byAsid with
        | (_, t1) => (t1, none, acc, true)

/-- Context switch for the remaining scheduled-out states — RUN, KILL and
the default label (asid_changed_linux, osi_pse_linux.cpp:733-767): a KILL
record being scheduled out is confirmed dead (END, asid-index entry
removed, end notification), then the scheduled-in task is resolved. -/
def acDefault (t : LPTracker) (k : Nat) (p : ProcessRecord) (next : Nat)
    (byAsid : Option ProcessHandle) : LPTracker × Option Nat × List Notif × Bool :=
  if p.state = St.KILL then
    if (alookup p.handle.asid t.asids).isSome then
      let p1 : ProcessRecord := { p with state := St.END }
      let t1 := updRec (eraseAsid t p.handle.asid) k p1
      acDefault2 t1 p1 next byAsid (cbEndOut p1)
    else (updRec t k { p with state := St.END }, none, [], true)
  else acDefault2 t p next byAsid []

/-- asid_changed_linux (osi_pse_linux.cpp:502-787): sanity-check the
introspected current record, save its state, dispatch on it, and update
the consistency checker's prediction from the resolved scheduled-in
record (ASID0 when none). -/
def asid_changed_linux (e : Engine) (h : ProcessHandle) (current next : Nat)
    (os : List ProcessHandle) (byAsid : Option ProcessHandle) : StepOut :=
  let pex := piExists e.lpt h
  let t := piTable e.lpt h
  match getRec t h.taskd with
  | none => ⟨{ e with lpt := t }, [], true⟩
  | some p0 =>
      if ¬(p0.handle.asid = current ∨ p0.handle.asid = ASID0 ∨ p0.state = St.END ∨
           (p0.state = St.INIT ∧ pex = false)) then
        ⟨{ e with lpt := t }, [], true⟩
      else
        let p := save_state p0
        let t1 := updRec t h.taskd p
        let r := match p.state with
          | St.KERN => acKERN t1 next byAsid
          | St.CLN => acCLN t1 h.taskd p current next os byAsid
          | St.EXE => acEXE t1 h.taskd p h current next
          | St.END => acEND t1 h.taskd p h next
          | _ => acDefault t1 h.taskd p next byAsid
        match r with
        | (t2, pnextk, out, f) =>
            let g := match pnextk with
              | some nk =>
                  match getRec t2 nk with
                  | some pr => pr.handle.taskd
                  | none => ASID0
              | none => ASID0
            ⟨{ lpt := t2, taskd_guess := g }, out, f⟩

/-- The event dispatcher: one entry point per classified event. -/
def step (e : Engine) : Event → StepOut
  | Event.sysEnter h sc => handle_sys_enter e h sc
  | Event.sysReturn h sc os => handle_sys_return e h sc os
  | Event.killReturn h pid sig ret => handle_kill_return e h pid sig ret
  | Event.asidChange h cur nxt os byAsid => asid_changed_linux e h cur nxt os byAsid

/-- Run a sequence of events from a state; a fatal assertion aborts the
trace (no later event is processed). -/
def runEvents : Engine → List Event → Engine × List Notif × Bool
  | e, [] => (e, [], false)
  | e, ev :: rest =>
      let s := step e ev
      if s.fatal then (s.eng, s.out, true)
      else
        match runEvents s.eng rest with
        | (e2, out2, f) => (e2, s.out ++ out2, f)

/-- States skipped by the finalize accounting loop
(uninit_osi_pse_linux, osi_pse_linux.cpp:837-846). -/
def finalSkip (s : St) : Bool := s = St.INIT ∨ s = St.END ∨ s = St.KERN

/-- End notifications fired by the finalize loop, in table order. -/
def uninitNotifs : List (Nat × ProcessRecord) → List Notif
  | [] => []
  | (_, p) :: rest =>
      (if finalSkip p.state then [] else cbEndOut p) ++ uninitNotifs rest

/-- Number of records currently in a given state (state_counts). -/
def stateCount (t : LPTracker) (s : St) : Nat :=
  (t.ps.filter (fun kv => kv.2.state = s)).length

/-- All FSM states, in the order of the source enum. -/
def allStates : List St :=
  [St.INIT, St.RUN, St.CLN, St.VFP, St.VFC, St.EXE, St.KILL, St.END, St.KERN]

/-- uninit_osi_pse_linux (osi_pse_linux.cpp:822-860): account every record
per state, fire the end notification for every record not in INIT, END or
KERN, then release all records and index entries. -/
def uninit_osi_pse_linux (t : LPTracker) :
    List Notif × List (St × Nat) × LPTracker :=
  (uninitNotifs t.ps, allStates.map (fun s => (s, stateCount t s)), ⟨[], []⟩)

/-- A whole trace: initialize, dispatch the events, finalize.  Returns the
full notification sequence, the final per-state record counts, and whether
the trace aborted on a fatal assertion. -/
def runTrace (live : List ProcessHandle) (evs : List Event) :
    List Notif × List (St × Nat) × Bool :=
  match runEvents (engInit live) evs with
  | (e, out, f) =>
      match uninit_osi_pse_linux e.lpt with
      | (out2, counts, _) => (out ++ out2, counts, f)

/-- Engine states reachable from some trace initialization through
non-fatal dispatcher events. -/
inductive Reachable : Engine → Prop
  | init (live : List ProcessHandle) : Reachable (engInit live)
  | evstep (e : Engine) (ev : Event) : Reachable e → (step e ev).fatal = false →
      Reachable (step e ev).eng

/-! Basic lemmas about the association-list indices. -/

theorem alookup_aset {α : Type} (k k' : Nat) (v : α) (l : List (Nat × α)) :
    alookup k (aset k' v l) = if k = k' then some v else alookup k l := by
  induction l with
  | nil => by_cases h : k = k' <;> simp [aset, alookup, h]
  | cons kv rest ih =>
      obtain ⟨a, b⟩ := kv
      by_cases h1 : k' = a
      · subst h1
        by_cases h2 : k = k' <;> simp [aset, alookup, h2]
      · by_cases h2 : k = a
        · subst h2
          have h3 : ¬(k = k') := fun hx => h1 hx.symm
          simp [aset, alookup, h1, h3]
        · simp [aset, alookup, h1, h2, ih]

theorem alookup_aset_self {α : Type} (k : Nat) (v : α) (l : List (Nat × α)) :
    alookup k (aset k v l) = some v := by
  simp [alookup_aset]

theorem alookup_aset_ne {α : Type} (k k' : Nat) (v : α) (l : List (Nat × α))
    (h : k ≠ k') : alookup k (aset k' v l) = alookup k l := by
  simp [alookup_aset, h]

/-! Concrete fixtures used by counterexamples and witnesses: a parent
process P1, two independent processes P2 and P3, a vfork child Ch sharing
P1's address space, and a clone child CLh. -/

/-- Fixture: live process P1 (taskd 1, pid 10, asid 100). -/
def P1h : ProcessHandle := ⟨1, 10, 1, 100⟩

/-- Fixture: live process P2 (taskd 4, pid 20, asid 200). -/
def P2h : ProcessHandle := ⟨4, 20, 1, 200⟩

/-- Fixture: live process P3 (taskd 5, pid 30, asid 300). -/
def P3h : ProcessHandle := ⟨5, 30, 1, 300⟩

/-- Fixture: vfork child of P1 (taskd 2, pid 11, shared asid 100). -/
def Ch : ProcessHandle := ⟨2, 11, 10, 100⟩

/-- Fixture: clone child of P1 (taskd 3, pid 12, asid 103). -/
def CLh : ProcessHandle := ⟨3, 12, 10, 103⟩

/-- Fixture event: an ordinary syscall entry from P1 (INIT to RUN). -/
def evP1Run : Event := Event.sysEnter P1h (Sysc.other 42)

/-- Fixture event: the vfork return, delivered in the child's context. -/
def evVfRet : Event := Event.sysReturn Ch Sysc.vfork []

/-- Fixture event: the vfork child enters execve. -/
def evChExec : Event := Event.sysEnter Ch Sysc.execve

/-- Fixture engine: P1 in VFP linked to child Ch in EXE (vfork then
execve), asid 100 indexed to the child. -/
def engVfExec : Engine := (runEvents (engInit [P1h]) [evP1Run, evVfRet, evChExec]).1

/-- Fixture engine: P1 in VFP linked to child Ch in VFC (vfork return
processed, no execve yet). -/
def engVfc : Engine := (runEvents (engInit [P1h]) [evP1Run, evVfRet]).1

/-- Fixture engine: P2 running, P3 in KILL after a successful kill -9. -/
def engKilled : Engine :=
  (runEvents (engInit [P2h, P3h])
    [Event.sysEnter P2h (Sysc.other 3), Event.killReturn P2h 30 9 0]).1

/-- Fixture engine: P1 running alone. -/
def engRun1 : Engine := (runEvents (engInit [P1h]) [evP1Run]).1

/-! Claim C10 — kill-return frame and effect. -/

/-- C10: a kill return with nonzero status or a signal other than 9/2
changes nothing at all; a successful kill with signal 9 or 2 and positive target pid
saves the target's previous state and sets its state to KILL — from any
current state — and changes no other record, no index entry and no
prediction, firing no notification. -/
theorem c10_kill_return_effect (e : Engine) (h : ProcessHandle) (pid sig ret : Int)
    (tk : Nat) (q : ProcessRecord) :
    (ret ≠ 0 ∨ ¬(sig = 9 ∨ sig = 2) → handle_kill_return e h pid sig ret = ⟨e, [], false⟩) ∧
    (ret = 0 → (sig = 9 ∨ sig = 2) → 0 < pid →
      (alookup h.taskd e.lpt.ps).isSome = true →
      findPid pid e.lpt.ps = some (tk, q) →
      (handle_kill_return e h pid sig ret).fatal = false ∧
      (handle_kill_return e h pid sig ret).out = [] ∧
      getRec (handle_kill_return e h pid sig ret).eng.lpt tk =
        some { q with prev := q.state, state := St.KILL } ∧
      (∀ k, k ≠ tk → getRec (handle_kill_return e h pid sig ret).eng.lpt k = getRec e.lpt k) ∧
      (handle_kill_return e h pid sig ret).eng.lpt.asids = e.lpt.asids ∧
      (handle_kill_return e h pid sig ret).eng.taskd_guess = e.taskd_guess) := by
  constructor
  · intro hc
    simp only [handle_kill_return, if_pos hc]
  · intro hret hsig hpid hcaller hfind
    obtain ⟨v, hv⟩ := Option.isSome_iff_exists.mp hcaller
    have hcond : ¬(ret ≠ 0 ∨ ¬(sig = 9 ∨ sig = 2)) := by
      push_neg
      exact ⟨hret, hsig⟩
    have hple : ¬(pid ≤ 0) := by omega
    have htab : piTable e.lpt h = e.lpt := by
      simp [piTable, hv]
    have hex : piExists e.lpt h = true := by
      simp [piExists, hv]
    simp only [handle_kill_return, if_neg hcond, if_neg hple, htab, hex, if_pos trivial,
               hfind, getRec, updRec]
    refine ⟨by trivial, by trivial, ?_, ?_, by trivial, by trivial⟩
    · simp [alookup_aset_self]
    · intro k hk
      simp [alookup_aset_ne _ _ _ _ hk]

/-- Witness for C10: concrete successful kill -9 from P2 against P3. -/
theorem c10_witness :
    (handle_kill_return engRun1 P1h 0 9 1 = ⟨engRun1, [], false⟩) ∧
    (handle_kill_return engKilled P2h 30 9 0).fatal = false ∧
    getRec (handle_kill_return engKilled P2h 30 9 0).eng.lpt 5 =
      some { handle := P3h, state := St.KILL, prev := St.KILL, vforkp := none,
             vforkc := none, started := false } := by
  have h1 := (c10_kill_return_effect engRun1 P1h 0 9 1 0
    ⟨P1h, St.INIT, St.INIT, none, none, false⟩).1 (by decide)
  have h2 := (c10_kill_return_effect engKilled P2h 30 9 0 5
    ⟨P3h, St.KILL, St.INIT, none, none, false⟩).2 (by decide) (by decide) (by decide)
    (by decide) (by decide)
  exact ⟨h1, h2.1, h2.2.2.1⟩

/-! Claim C9 — replay determinism. -/

/-- C9: the dispatcher is a pure function of the initial live-process list
and the ordered event log: identical inputs produce identical notification
sequences and identical final per-state record counts. -/
theorem c9_replay_determinism (live1 live2 : List ProcessHandle) (evs1 evs2 : List Event)
    (hl : live1 = live2) (he : evs1 = evs2) :
    runTrace live1 evs1 = runTrace live2 evs2 := by
  subst hl
  subst he
  rfl

/-- Witness for C9: two identical concrete replays agree. -/
theorem c9_witness :
    runTrace [P1h] [evP1Run, evVfRet, evChExec] = runTrace [P1h] [evP1Run, evVfRet, evChExec] :=
  c9_replay_determinism [P1h] [P1h] [evP1Run, evVfRet, evChExec] [evP1Run, evVfRet, evChExec]
    rfl rfl

/-! Claim C8 — finalize. -/

/-- C8 counterexample: a record still in INIT at finalize is not terminal
(its state is not END), yet finalize fires no end notification for it —
refuting the claim that every non-END record is force-finalized. -/
theorem c8_counterexample :
    getRec (lptInit [P1h]) 1 = some (freshRec P1h) ∧
    (freshRec P1h).state = St.INIT ∧
    (freshRec P1h).state ≠ St.END ∧
    (uninit_osi_pse_linux (lptInit [P1h])).1 = [] := by
  decide

/-- The finalize loop fires exactly the end notifications of the records
whose state is outside the skip set, in table order. -/
theorem uninitNotifs_eq (l : List (Nat × ProcessRecord)) :
    uninitNotifs l =
      (l.filter (fun kv => !finalSkip kv.2.state)).map (fun kv => Notif.ended kv.2.handle) := by
  induction l with
  | nil => simp [uninitNotifs]
  | cons kv rest ih =>
      by_cases h : finalSkip kv.2.state <;>
        simp [uninitNotifs, h, ih, cbEndOut]

/-- C8 (amended): at finalize, exactly the records whose state is none of
INIT, END and KERN have their end notification fired (in table order);
afterwards all records and all index entries are released. -/
theorem c8_finalize_amended (t : LPTracker) :
    (uninit_osi_pse_linux t).1 =
      (t.ps.filter (fun kv => !finalSkip kv.2.state)).map (fun kv => Notif.ended kv.2.handle) ∧
    (uninit_osi_pse_linux t).2.2 = ⟨[], []⟩ := by
  exact ⟨uninitNotifs_eq t.ps, rfl⟩

/-! Claim C6 — exit / exit_group entries: counterexample. -/

/-- C6 counterexample: a record in VFC (vfork child before exec) observing
an exit_group syscall-enter stays in VFC — no END transition, no
asid-index removal, no end notification — refuting the claim for the VFC
state. -/
theorem c6_counterexample :
    (step engVfc (Event.sysEnter Ch Sysc.exit_group)).fatal = false ∧
    (getRec (step engVfc (Event.sysEnter Ch Sysc.exit_group)).eng.lpt 2).map
      ProcessRecord.state = some St.VFC ∧
    (getRec (step engVfc (Event.sysEnter Ch Sysc.exit_group)).eng.lpt 2).map
      ProcessRecord.state ≠ some St.END ∧
    (step engVfc (Event.sysEnter Ch Sysc.exit_group)).out = [] ∧
    alookup 100 (step engVfc (Event.sysEnter Ch Sysc.exit_group)).eng.lpt.asids = some 2 := by
  decide

/-- C6 (amended): an exit_group syscall-enter from RUN or EXE moves the
record to END, removes its asid-index entry within the same event and
fires the end notification; a sys_exit entry performs the same mutations
and fires the same notification but then aborts the analysis (untested
path); from VFC the syscall is not recognized and the record stays in VFC
with nothing fired; from VFP the END transition additionally requires the
linked child to be in RUN or EXE. -/
theorem c6_exit_entry_amended (e : Engine) (h : ProcessHandle) (p : ProcessRecord)
    (pk ck : Nat) (par c : ProcessRecord)
    (hp : getRec e.lpt h.taskd = some p) (hph : p.handle = h) :
    (p.state = St.RUN → (alookup h.asid e.lpt.asids).isSome = true →
      (handle_sys_enter e h Sysc.exit_group).fatal = false ∧
      (handle_sys_enter e h Sysc.exit_group).out = [Notif.ended h] ∧
      getRec (handle_sys_enter e h Sysc.exit_group).eng.lpt h.taskd =
        some { p with prev := St.RUN, state := St.END } ∧
      (handle_sys_enter e h Sysc.exit_group).eng.lpt.asids = aerase h.asid e.lpt.asids) ∧
    (p.state = St.RUN → (alookup h.asid e.lpt.asids).isSome = true →
      (handle_sys_enter e h Sysc.sys_exit).fatal = true ∧
      (handle_sys_enter e h Sysc.sys_exit).out = [Notif.ended h] ∧
      getRec (handle_sys_enter e h Sysc.sys_exit).eng.lpt h.taskd =
        some { p with prev := St.RUN, state := St.END } ∧
      (handle_sys_enter e h Sysc.sys_exit).eng.lpt.asids = aerase h.asid e.lpt.asids) ∧
    (p.state = St.EXE → (alookup h.asid e.lpt.asids).isSome = true →
      (handle_sys_enter e h Sysc.exit_group).fatal = false ∧
      (handle_sys_enter e h Sysc.exit_group).out = [Notif.ended h] ∧
      getRec (handle_sys_enter e h Sysc.exit_group).eng.lpt h.taskd =
        some { p with prev := St.EXE, state := St.END } ∧
      (handle_sys_enter e h Sysc.exit_group).eng.lpt.asids = aerase h.asid e.lpt.asids) ∧
    (p.state = St.VFC → p.vforkp = some pk → p.vforkc = none → pk ≠ h.taskd →
      getRec e.lpt pk = some par → par.handle.pid ≠ 0 →
      (handle_sys_enter e h Sysc.exit_group).fatal = false ∧
      (handle_sys_enter e h Sysc.exit_group).out = [] ∧
      (getRec (handle_sys_enter e h Sysc.exit_group).eng.lpt h.taskd).map
        ProcessRecord.state = some St.VFC ∧
      (handle_sys_enter e h Sysc.exit_group).eng.lpt.asids = e.lpt.asids) ∧
    (p.state = St.VFP → p.vforkp = none → p.vforkc = some ck → ck ≠ h.taskd →
      getRec e.lpt ck = some c → (c.state = St.RUN ∨ c.state = St.EXE) →
      p.handle.pid ≠ 0 → (alookup h.asid e.lpt.asids).isSome = true →
      (handle_sys_enter e h Sysc.exit_group).fatal = false ∧
      (handle_sys_enter e h Sysc.exit_group).out = [Notif.ended h] ∧
      (getRec (handle_sys_enter e h Sysc.exit_group).eng.lpt h.taskd).map
        ProcessRecord.state = some St.END ∧
      (handle_sys_enter e h Sysc.exit_group).eng.lpt.asids = aerase h.asid e.lpt.asids) := by
  have hp' : alookup h.taskd e.lpt.ps = some p := hp
  refine ⟨?_, ?_, ?_, ?_, ?_⟩
  · intro hst hasid
    obtain ⟨av, hav⟩ := Option.isSome_iff_exists.mp hasid
    simp only [handle_sys_enter, piTable, getRec, hp', hst, save_state, seNormal, updRec,
               cbEndOut, hph, hav, eraseAsid]
    simp [alookup_aset_self, hph, hst, hasid]
  · intro hst hasid
    obtain ⟨av, hav⟩ := Option.isSome_iff_exists.mp hasid
    simp only [handle_sys_enter, piTable, getRec, hp', hst, save_state, seNormal, updRec,
               cbEndOut, hph, hav, eraseAsid]
    simp [alookup_aset_self, hph, hst, hasid]
  · intro hst hasid
    obtain ⟨av, hav⟩ := Option.isSome_iff_exists.mp hasid
    simp only [handle_sys_enter, piTable, getRec, hp', hst, save_state, seEXE, updRec,
               cbEndOut, hph, hav, eraseAsid]
    simp [alookup_aset_self, hph, hst, hasid]
  · intro hst hvp hvc hpk hpar hpid
    have hpar' : alookup pk e.lpt.ps = some par := hpar
    simp [handle_sys_enter, piTable, getRec, hp', hst, save_state, seVFC, updRec,
          hvp, hvc, alookup_aset, hpk, hpar', hpid]
  · intro hst hvp hvc hck hc hcs hpid hasid
    obtain ⟨av, hav⟩ := Option.isSome_iff_exists.mp hasid
    have hc' : alookup ck e.lpt.ps = some c := hc
    have hpid2 : h.pid ≠ 0 := by
      rw [← hph]
      exact hpid
    rcases hcs with hcs | hcs <;>
      simp [handle_sys_enter, piTable, getRec, hp', hst, save_state, seVFP, updRec,
            hvp, hvc, alookup_aset, hck, hc', hpid2, cbEndOut, hph, hav, hasid, hcs,
            eraseAsid]

/-- Witness for C6: P1 running alone enters exit_group and ends. -/
theorem c6_witness :
    (handle_sys_enter engRun1 P1h Sysc.exit_group).fatal = false ∧
    (handle_sys_enter engRun1 P1h Sysc.exit_group).out = [Notif.ended P1h] ∧
    getRec (handle_sys_enter engRun1 P1h Sysc.exit_group).eng.lpt 1 =
      some ⟨P1h, St.END, St.RUN, none, none, true⟩ := by
  have hx := (c6_exit_entry_amended engRun1 P1h ⟨P1h, St.RUN, St.INIT, none, none, true⟩ 0 0
      ⟨P1h, St.RUN, St.INIT, none, none, true⟩ ⟨P1h, St.RUN, St.INIT, none, none, true⟩
      (by decide) (by decide)).1 (by decide) (by decide)
  exact ⟨hx.1, hx.2.1, hx.2.2.1⟩

/-! Claim C5 — KILL resolution. -/

/-- C5 counterexample: P3 is in KILL and its address space (asid 300) is
still indexed; a context-switch onto asid 300 — the situation in which the
guest has reused the killed process's address space — while P2 is the
scheduled-out context leaves P3 in KILL: no END transition, no index
removal, no end notification.  This refutes the claim that such a switch
confirms the kill. -/
theorem c5_counterexample :
    (getRec engKilled.lpt 5).map ProcessRecord.state = some St.KILL ∧
    alookup 300 engKilled.lpt.asids = some 5 ∧
    (step engKilled (Event.asidChange P2h 200 300 [] none)).fatal = false ∧
    (step engKilled (Event.asidChange P2h 200 300 [] none)).out = [] ∧
    (getRec (step engKilled (Event.asidChange P2h 200 300 [] none)).eng.lpt 5).map
      ProcessRecord.state = some St.KILL ∧
    (getRec (step engKilled (Event.asidChange P2h 200 300 [] none)).eng.lpt 5).map
      ProcessRecord.state ≠ some St.END ∧
    alookup 300 (step engKilled (Event.asidChange P2h 200 300 [] none)).eng.lpt.asids =
      some 5 := by
  decide

/-- C5 (amended): a KILL record reverts to RUN at its next syscall-enter
(shown for an unclassified syscall); it is confirmed END at the next
context-switch that schedules the killed process itself out — at that
event its asid-index entry is removed and its end notification fires
exactly once — regardless of whether the scheduled-in context is indexed;
a switch onto the killed process's asid from another context changes
nothing (counterexample). -/
theorem c5_kill_resolution_amended (e : Engine) (h : ProcessHandle) (p : ProcessRecord)
    (next n tk : Nat) (q : ProcessRecord)
    (hp : getRec e.lpt h.taskd = some p) (hph : p.handle = h) (hst : p.state = St.KILL) :
    ((handle_sys_enter e h (Sysc.other n)).fatal = false ∧
      (getRec (handle_sys_enter e h (Sysc.other n)).eng.lpt h.taskd).map
        ProcessRecord.state = some St.RUN ∧
      (handle_sys_enter e h (Sysc.other n)).out = []) ∧
    ((alookup h.asid e.lpt.asids).isSome = true →
      alookup next (aerase h.asid e.lpt.asids) = some tk →
      getRec e.lpt tk = some q → tk ≠ h.taskd →
      (asid_changed_linux e h h.asid next [] none).fatal = false ∧
      (asid_changed_linux e h h.asid next [] none).out = [Notif.ended h] ∧
      (getRec (asid_changed_linux e h h.asid next [] none).eng.lpt h.taskd).map
        ProcessRecord.state = some St.END ∧
      (asid_changed_linux e h h.asid next [] none).eng.lpt.asids =
        aerase h.asid e.lpt.asids) ∧
    ((alookup h.asid e.lpt.asids).isSome = true →
      alookup next (aerase h.asid e.lpt.asids) = none →
      (asid_changed_linux e h h.asid next [] none).fatal = false ∧
      (asid_changed_linux e h h.asid next [] none).out = [Notif.ended h] ∧
      (getRec (asid_changed_linux e h h.asid next [] none).eng.lpt h.taskd).map
        ProcessRecord.state = some St.END ∧
      (asid_changed_linux e h h.asid next [] none).eng.lpt.asids =
        aerase h.asid e.lpt.asids) := by
  have hp' : alookup h.taskd e.lpt.ps = some p := hp
  refine ⟨?_, ?_, ?_⟩
  · simp [handle_sys_enter, piTable, getRec, hp', hst, save_state, seNormal, updRec,
          alookup_aset, hph]
  · intro hasid hnext hq htk
    obtain ⟨av, hav⟩ := Option.isSome_iff_exists.mp hasid
    have hq' : alookup tk e.lpt.ps = some q := hq
    simp [asid_changed_linux, piTable, getRec, hp', hst, save_state, acDefault, acDefault2,
          updRec, eraseAsid, alookup_aset, hph, hav, hnext, hq', htk, cbEndOut, piExists]
  · intro hasid hnext
    obtain ⟨av, hav⟩ := Option.isSome_iff_exists.mp hasid
    simp [asid_changed_linux, piTable, getRec, hp', hst, save_state, acDefault, acDefault2,
          updRec, eraseAsid, alookup_aset, hph, hav, hnext, cbEndOut, piExists]

/-- Witness for C5: the killed P3 is scheduled out; P2's asid is the next
context. -/
theorem c5_witness :
    (asid_changed_linux engKilled P3h 300 200 [] none).fatal = false ∧
    (asid_changed_linux engKilled P3h 300 200 [] none).out = [Notif.ended P3h] ∧
    (getRec (asid_changed_linux engKilled P3h 300 200 [] none).eng.lpt 5).map
      ProcessRecord.state = some St.END := by
  have hx := (c5_kill_resolution_amended engKilled P3h
      ⟨P3h, St.KILL, St.INIT, none, none, false⟩ 200 0 4
      ⟨P2h, St.RUN, St.INIT, none, none, true⟩
      (by decide) (by decide) (by decide)).2.1 (by decide) (by decide) (by decide) (by decide)
  exact ⟨hx.1, hx.2.1, hx.2.2.1⟩

/-! Claim C4 — unknown asid at a context-switch. -/

/-- C4 counterexample: a context-switch from a RUN process onto an asid
absent from the index, with the introspection collaborator offering a
handle for it, hits a fail-fast assertion (fatal) — refuting the claim
that the unknown-asid path is never fatal regardless of the scheduled-out
state. -/
theorem c4_counterexample :
    alookup 999 engRun1.lpt.asids = none ∧
    (step engRun1 (Event.asidChange P1h 100 999 [] (some ⟨7, 70, 1, 999⟩))).fatal = true := by
  decide

/-- C4 (amended): an unknown asid at a context-switch is recovered without
aborting when the scheduled-out context is the KERN sentinel: resampling
the introspection collaborator may find no process, an already-tracked
ended process, or a fresh process — the last case requires the fresh
process's parent to be mid-clone, creating and starting the child and
flipping the parent to RUN.  (From other scheduled-out states, e.g. RUN,
the unknown-asid path aborts: counterexample.) -/
theorem c4_unknown_asid_amended (e : Engine) (h h2 : ProcessHandle) (p par q : ProcessRecord)
    (current next park : Nat)
    (hp : getRec e.lpt h.taskd = some p) (hst : p.state = St.KERN)
    (hA0 : p.handle.asid = ASID0)
    (hnext : alookup next e.lpt.asids = none) :
    ((asid_changed_linux e h current next [] none).fatal = false ∧
      (asid_changed_linux e h current next [] none).out = []) ∧
    (alookup h2.taskd e.lpt.ps = some q → h2.taskd ≠ h.taskd → q.state = St.END →
      (asid_changed_linux e h current next [] (some h2)).fatal = false ∧
      (asid_changed_linux e h current next [] (some h2)).out = []) ∧
    (alookup h2.taskd e.lpt.ps = none → h2.taskd ≠ h.taskd → h2.asid ≠ ASID0 →
      findPid h2.ppid (aset h2.taskd (freshRec h2)
        (aset h.taskd (save_state p) e.lpt.ps)) = some (park, par) →
      par.state = St.CLN → park ≠ h2.taskd →
      (asid_changed_linux e h current next [] (some h2)).fatal = false ∧
      (asid_changed_linux e h current next [] (some h2)).out = [Notif.started h2] ∧
      getRec (asid_changed_linux e h current next [] (some h2)).eng.lpt h2.taskd =
        some { freshRec h2 with started := true } ∧
      (getRec (asid_changed_linux e h current next [] (some h2)).eng.lpt park).map
        ProcessRecord.state = some St.RUN ∧
      (asid_changed_linux e h current next [] (some h2)).eng.taskd_guess = h2.taskd) := by
  have hp' : alookup h.taskd e.lpt.ps = some p := hp
  refine ⟨?_, ?_, ?_⟩
  · simp [asid_changed_linux, piTable, getRec, hp', hst, save_state, acKERN,
          AddNewByASID, updRec, setAsid, alookup_aset, hA0, hnext, piExists, ASID0]
  · intro hq hne hqend
    simp [asid_changed_linux, piTable, getRec, hp', hst, save_state, acKERN,
          AddNewByASID, updRec, setAsid, alookup_aset, hA0, hnext, piExists, ASID0,
          hq, hne, hqend]
  · intro hq hne hasid2 hfind hcln hpark
    have hasid2' : h2.asid ≠ 0 := hasid2
    simp [freshRec, save_state, ASID0, hst, hasid2'] at hfind
    simp [asid_changed_linux, piTable, getRec, hp', hst, save_state, acKERN,
          AddNewByASID, updRec, setAsid, alookup_aset, hA0, hnext, piExists, ASID0,
          hq, hne, hasid2', hfind, hcln, hpark, freshRec, cbStartRec, cbStartOut]

/-- Witness for C4: a KERN context switches onto unknown asid 103 whose
process is the clone child of P1 (mid-clone). -/
theorem c4_witness :
    (asid_changed_linux
        (runEvents (engInit [P1h]) [evP1Run, Event.sysEnter P1h Sysc.clone,
          Event.sysReturn ⟨9, 0, 0, 0⟩ (Sysc.other 5) []]).1
        ⟨9, 0, 0, 0⟩ 0 103 [] (some CLh)).fatal = false ∧
    (asid_changed_linux
        (runEvents (engInit [P1h]) [evP1Run, Event.sysEnter P1h Sysc.clone,
          Event.sysReturn ⟨9, 0, 0, 0⟩ (Sysc.other 5) []]).1
        ⟨9, 0, 0, 0⟩ 0 103 [] (some CLh)).out = [Notif.started CLh] := by
  have hx := (c4_unknown_asid_amended
      (runEvents (engInit [P1h]) [evP1Run, Event.sysEnter P1h Sysc.clone,
        Event.sysReturn ⟨9, 0, 0, 0⟩ (Sysc.other 5) []]).1
      ⟨9, 0, 0, 0⟩ CLh (freshRec ⟨9, 0, 0, 0⟩)
      ⟨P1h, St.CLN, St.RUN, none, none, true⟩ (freshRec ⟨9, 0, 0, 0⟩) 0 103 1
      (by decide) (by decide) (by decide) (by decide)).2.2
      (by decide) (by decide) (by decide) (by decide) (by decide) (by decide)
  exact ⟨hx.1, hx.2.1⟩

/-! Claim C3 — VFP syscall-enter handling. -/

/-- C3 counterexample: the vfork parent P1 (VFP, child in EXE) observes an
ordinary syscall; the parent returns to RUN with both of its links
cleared, but the child's back-link to the parent is NOT cleared — refuting
the claim that the resolution clears both fork links. -/
theorem c3_counterexample :
    (step engVfExec (Event.sysEnter P1h (Sysc.other 7))).fatal = false ∧
    getRec (step engVfExec (Event.sysEnter P1h (Sysc.other 7))).eng.lpt 1 =
      some ⟨P1h, St.RUN, St.VFP, none, none, true⟩ ∧
    (getRec (step engVfExec (Event.sysEnter P1h (Sysc.other 7))).eng.lpt 2).map
      ProcessRecord.vforkp = some (some 1) ∧
    (getRec (step engVfExec (Event.sysEnter P1h (Sysc.other 7))).eng.lpt 2).map
      ProcessRecord.vforkp ≠ some none ∧
    alookup 100 (step engVfExec (Event.sysEnter P1h (Sysc.other 7))).eng.lpt.asids =
      some 1 := by
  decide

/-- C3 (amended): for a VFP record at syscall-enter, wait4 and waitpid
leave it in VFP; exit_group moves it to END only when the linked child is
in RUN or EXE (removing the parent's asid-index entry and firing its end
notification); any other syscall, when the linked child is in RUN or EXE,
returns the parent to RUN, clears the parent's two links and re-points the
asid index at the parent — but the child's back-link to the parent is left
in place (it is cleared only at the child's exec resolution). -/
theorem c3_vfp_entry_amended (e : Engine) (h : ProcessHandle) (p c : ProcessRecord)
    (ck n : Nat)
    (hp : getRec e.lpt h.taskd = some p) (hph : p.handle = h) (hst : p.state = St.VFP)
    (hvp : p.vforkp = none) (hvc : p.vforkc = some ck) (hck : ck ≠ h.taskd)
    (hc : getRec e.lpt ck = some c) (hpid : p.handle.pid ≠ 0) :
    (((handle_sys_enter e h Sysc.wait4).fatal = false ∧
      (getRec (handle_sys_enter e h Sysc.wait4).eng.lpt h.taskd).map
        ProcessRecord.state = some St.VFP ∧
      (handle_sys_enter e h Sysc.wait4).out = []) ∧
     ((handle_sys_enter e h Sysc.waitpid).fatal = false ∧
      (getRec (handle_sys_enter e h Sysc.waitpid).eng.lpt h.taskd).map
        ProcessRecord.state = some St.VFP ∧
      (handle_sys_enter e h Sysc.waitpid).out = [])) ∧
    ((c.state = St.RUN ∨ c.state = St.EXE) → (alookup h.asid e.lpt.asids).isSome = true →
      (handle_sys_enter e h Sysc.exit_group).fatal = false ∧
      (getRec (handle_sys_enter e h Sysc.exit_group).eng.lpt h.taskd).map
        ProcessRecord.state = some St.END ∧
      (handle_sys_enter e h Sysc.exit_group).out = [Notif.ended h] ∧
      (handle_sys_enter e h Sysc.exit_group).eng.lpt.asids = aerase h.asid e.lpt.asids) ∧
    ((c.state = St.RUN ∨ c.state = St.EXE) →
      (handle_sys_enter e h (Sysc.other n)).fatal = false ∧
      getRec (handle_sys_enter e h (Sysc.other n)).eng.lpt h.taskd =
        some { p with prev := St.VFP, state := St.RUN, vforkp := none, vforkc := none } ∧
      (getRec (handle_sys_enter e h (Sysc.other n)).eng.lpt ck).map
        ProcessRecord.vforkp = some c.vforkp ∧
      alookup c.handle.asid (handle_sys_enter e h (Sysc.other n)).eng.lpt.asids =
        some h.taskd ∧
      (handle_sys_enter e h (Sysc.other n)).out = []) := by
  have hp' : alookup h.taskd e.lpt.ps = some p := hp
  have hc' : alookup ck e.lpt.ps = some c := hc
  have hpid2 : h.pid ≠ 0 := by
    rw [← hph]
    exact hpid
  have hck' : h.taskd ≠ ck := fun hx => hck hx.symm
  refine ⟨⟨?_, ?_⟩, ?_, ?_⟩
  · simp [handle_sys_enter, piTable, getRec, hp', hst, save_state, seVFP, updRec,
          hvp, hvc, alookup_aset, hck, hck', hc', hpid2, hph]
  · simp [handle_sys_enter, piTable, getRec, hp', hst, save_state, seVFP, updRec,
          hvp, hvc, alookup_aset, hck, hck', hc', hpid2, hph]
  · intro hcs hasid
    obtain ⟨av, hav⟩ := Option.isSome_iff_exists.mp hasid
    rcases hcs with hcs | hcs <;>
      simp [handle_sys_enter, piTable, getRec, hp', hst, save_state, seVFP, updRec,
            hvp, hvc, alookup_aset, hck, hck', hc', hpid2, hph, hcs, hav, cbEndOut, eraseAsid]
  · intro hcs
    rcases hcs with hcs | hcs <;>
      simp [handle_sys_enter, piTable, getRec, hp', hst, save_state, seVFP, updRec, setAsid,
            hvp, hvc, alookup_aset, hck, hck', hc', hpid2, hph, hcs]

/-- Witness for C3: the concrete VFP parent P1 with its child in EXE. -/
theorem c3_witness :
    (handle_sys_enter engVfExec P1h Sysc.wait4).fatal = false ∧
    (getRec (handle_sys_enter engVfExec P1h (Sysc.other 7)).eng.lpt 2).map
      ProcessRecord.vforkp = some (some 1) := by
  have hx := c3_vfp_entry_amended engVfExec P1h
      ⟨P1h, St.VFP, St.INIT, none, some 2, true⟩
      ⟨Ch, St.EXE, St.VFC, some 1, none, false⟩ 2 7
      (by decide) (by decide) (by decide) (by decide) (by decide) (by decide)
      (by decide) (by decide)
  exact ⟨hx.1.1.1, (hx.2.2 (Or.inr (by decide))).2.2.1⟩

/-! Claim C2 — EXE resolution at the next context-switch. -/

/-- C2 counterexample: the vfork child Ch is in EXE with an open vfork
parent and control switches onto the previously-unmapped asid 400 (exec
succeeded); the event fires ONLY the start notification for the new image
— no end notification for the old image fires (the transient image's end
callback is compiled out in the default build) — refuting the claim that
the end notification for the old image fires in that situation. -/
theorem c2_counterexample :
    alookup 400 engVfExec.lpt.asids = none ∧
    (getRec engVfExec.lpt 2).map ProcessRecord.state = some St.EXE ∧
    (getRec engVfExec.lpt 2).map ProcessRecord.vforkp = some (some 1) ∧
    (step engVfExec (Event.asidChange Ch 100 400 [] none)).fatal = false ∧
    (step engVfExec (Event.asidChange Ch 100 400 [] none)).out =
      [Notif.started ⟨2, 11, 10, 400⟩] ∧
    Notif.ended ⟨2, 11, 10, 100⟩ ∉
      (step engVfExec (Event.asidChange Ch 100 400 [] none)).out := by
  decide

/-- C2 (amended): an EXE record is resolved at the next context-switch.
If the scheduled-in asid is still indexed, the exec has not finished: the
record stays in EXE, nothing fires, and a repeated execve syscall-enter at
the same asid is accepted without anomaly.  If the scheduled-in asid is
previously unmapped and the record has no vfork parent, exec succeeded:
the end notification for the old image fires, the handle is rewritten in
place under the same task identity, the asid index is remapped, and the
start notification for the new image fires.  If the record still has an
open vfork-parent link whose partner is in VFP, the partner is first
resolved to RUN with the asid index restored to the parent — but then only
the start notification for the child's new image fires (no end
notification for the transient old image, default build). -/
theorem c2_exe_resolution_amended (e : Engine) (h : ProcessHandle) (p pn par : ProcessRecord)
    (tk pk next : Nat)
    (hp : getRec e.lpt h.taskd = some p) (hph : p.handle = h) (hst : p.state = St.EXE) :
    (p.vforkp = none → alookup next e.lpt.asids = some tk → tk ≠ h.taskd →
      getRec e.lpt tk = some pn → pn.state ≠ St.END → pn.handle.pid ≠ p.handle.pid →
      (asid_changed_linux e h h.asid next [] none).fatal = false ∧
      (asid_changed_linux e h h.asid next [] none).out = [] ∧
      (getRec (asid_changed_linux e h h.asid next [] none).eng.lpt h.taskd).map
        ProcessRecord.state = some St.EXE ∧
      (asid_changed_linux e h h.asid next [] none).eng.lpt.asids = e.lpt.asids) ∧
    (p.vforkp = none →
      (handle_sys_enter e h Sysc.execve).fatal = false ∧
      (handle_sys_enter e h Sysc.execve).out = [] ∧
      (getRec (handle_sys_enter e h Sysc.execve).eng.lpt h.taskd).map
        ProcessRecord.state = some St.EXE ∧
      (handle_sys_enter e h Sysc.execve).eng.lpt.asids = e.lpt.asids) ∧
    (p.vforkp = none → alookup next e.lpt.asids = none →
      (alookup h.asid e.lpt.asids).isSome = true →
      (asid_changed_linux e h h.asid next [] none).fatal = false ∧
      (asid_changed_linux e h h.asid next [] none).out =
        [Notif.ended h, Notif.started ⟨h.taskd, p.handle.pid, p.handle.ppid, next⟩] ∧
      getRec (asid_changed_linux e h h.asid next [] none).eng.lpt h.taskd =
        some ⟨⟨h.taskd, p.handle.pid, p.handle.ppid, next⟩, St.INIT, St.EXE,
              none, none, true⟩ ∧
      (asid_changed_linux e h h.asid next [] none).eng.lpt.asids =
        aset next h.taskd (aerase h.asid e.lpt.asids)) ∧
    (p.vforkp = some pk → getRec e.lpt pk = some par → pk ≠ h.taskd →
      par.state = St.VFP → p.handle.ppid = par.handle.pid →
      (asid_changed_linux e h h.asid next [] none).fatal = false ∧
      (asid_changed_linux e h h.asid next [] none).out =
        [Notif.started ⟨h.taskd, p.handle.pid, p.handle.ppid, next⟩] ∧
      getRec (asid_changed_linux e h h.asid next [] none).eng.lpt pk =
        some { par with prev := St.VFP, state := St.RUN, vforkp := none, vforkc := none } ∧
      getRec (asid_changed_linux e h h.asid next [] none).eng.lpt h.taskd =
        some ⟨⟨h.taskd, p.handle.pid, p.handle.ppid, next⟩, St.INIT, St.EXE,
              none, none, true⟩ ∧
      (asid_changed_linux e h h.asid next [] none).eng.lpt.asids =
        aset next h.taskd (aset h.asid par.handle.taskd e.lpt.asids)) := by
  have hp' : alookup h.taskd e.lpt.ps = some p := hp
  refine ⟨?_, ?_, ?_, ?_⟩
  · intro hvp hm htk hpn hne hnp
    have hpn' : alookup tk e.lpt.ps = some pn := hpn
    have hnp2 : pn.handle.pid ≠ h.pid := by
      rw [← hph]
      exact hnp
    simp [asid_changed_linux, piTable, getRec, hp', hst, save_state, acEXE, updRec,
          hvp, hm, alookup_aset, htk, hpn', hne, hnp2, hph, piExists]
  · intro hvp
    simp [handle_sys_enter, piTable, getRec, hp', hst, save_state, seEXE, updRec,
          hvp, alookup_aset, hph]
  · intro hvp hm hpa
    obtain ⟨av, hav⟩ := Option.isSome_iff_exists.mp hpa
    simp [asid_changed_linux, piTable, getRec, hp', hst, save_state, acEXE, updRec,
          setAsid, eraseAsid, hvp, hm, alookup_aset, hav, hph, piExists, resetTA,
          cbStartRec, cbStartOut, cbEndOut]
  · intro hvp hpar hpk hparst hppid
    have hpar' : alookup pk e.lpt.ps = some par := hpar
    have hppid2 : h.ppid = par.handle.pid := by
      rw [← hph]
      exact hppid
    simp [asid_changed_linux, piTable, getRec, hp', hst, save_state, acEXE, updRec,
          setAsid, hvp, hpar', alookup_aset, hpk, hparst, hppid2, hph, piExists, resetTA,
          cbStartRec, cbStartOut]

/-- Witness for C2: the concrete vfork child resolves at asid 400, and
the failed-exec tolerance for a plain EXE record. -/
theorem c2_witness :
    (asid_changed_linux engVfExec Ch 100 400 [] none).fatal = false ∧
    (asid_changed_linux engVfExec Ch 100 400 [] none).out =
      [Notif.started ⟨2, 11, 10, 400⟩] ∧
    getRec (asid_changed_linux engVfExec Ch 100 400 [] none).eng.lpt 1 =
      some ⟨P1h, St.RUN, St.VFP, none, none, true⟩ := by
  have hx := (c2_exe_resolution_amended engVfExec Ch
      ⟨Ch, St.EXE, St.VFC, some 1, none, false⟩
      ⟨Ch, St.EXE, St.VFC, some 1, none, false⟩
      ⟨P1h, St.VFP, St.INIT, none, some 2, true⟩ 0 1 400
      (by decide) (by decide) (by decide)).2.2.2
      (by decide) (by decide) (by decide) (by decide) (by decide)
  exact ⟨hx.1, hx.2.1, hx.2.2.1⟩

/-! Claim C1 — child materialization for a CLN parent. -/

/-- C1: while a parent's record is in CLN, child materialization is
attempted at the clone's syscall-return and at every context-switch to a
different address space: whichever event first finds a not-yet-tracked
process with the parent's pid creates the child record, delivers its start
notification, indexes its asid and flips the parent CLN to RUN; as long as
no such process exists, the parent remains in CLN (shown for a return with
an empty snapshot and for a switch onto an already-indexed asid). -/
theorem c1_child_materialization (e : Engine) (h hc : ProcessHandle) (p q : ProcessRecord)
    (next tk : Nat) (sc : Sysc)
    (hp : getRec e.lpt h.taskd = some p) (hph : p.handle = h) (hst : p.state = St.CLN) :
    (hc.ppid = p.handle.pid → alookup hc.taskd e.lpt.ps = none →
      (handle_sys_return e h sc [hc]).fatal = false ∧
      (handle_sys_return e h sc [hc]).out = [Notif.started hc] ∧
      getRec (handle_sys_return e h sc [hc]).eng.lpt hc.taskd =
        some { freshRec hc with started := true } ∧
      getRec (handle_sys_return e h sc [hc]).eng.lpt h.taskd =
        some { p with state := St.RUN } ∧
      alookup hc.asid (handle_sys_return e h sc [hc]).eng.lpt.asids = some hc.taskd) ∧
    ((handle_sys_return e h sc []).fatal = false ∧
      (handle_sys_return e h sc []).out = [] ∧
      getRec (handle_sys_return e h sc []).eng.lpt h.taskd = some p) ∧
    (hc.ppid = p.handle.pid → alookup hc.taskd e.lpt.ps = none → next ≠ h.asid →
      hc.asid = next →
      (asid_changed_linux e h h.asid next [hc] none).fatal = false ∧
      (asid_changed_linux e h h.asid next [hc] none).out = [Notif.started hc] ∧
      getRec (asid_changed_linux e h h.asid next [hc] none).eng.lpt h.taskd =
        some { p with prev := St.CLN, state := St.RUN } ∧
      getRec (asid_changed_linux e h h.asid next [hc] none).eng.lpt hc.taskd =
        some { freshRec hc with started := true } ∧
      (asid_changed_linux e h h.asid next [hc] none).eng.taskd_guess = hc.taskd) ∧
    (next ≠ h.asid → alookup next e.lpt.asids = some tk → tk ≠ h.taskd →
      getRec e.lpt tk = some q →
      (asid_changed_linux e h h.asid next [] none).fatal = false ∧
      (asid_changed_linux e h h.asid next [] none).out = [] ∧
      (getRec (asid_changed_linux e h h.asid next [] none).eng.lpt h.taskd).map
        ProcessRecord.state = some St.CLN) := by
  have hp' : alookup h.taskd e.lpt.ps = some p := hp
  refine ⟨?_, ?_, ?_, ?_⟩
  · intro hch hnew
    have hne : hc.taskd ≠ h.taskd := by
      intro hx
      rw [hx, hp'] at hnew
      exact Option.noConfusion hnew
    have hne' : h.taskd ≠ hc.taskd := fun hx => hne hx.symm
    simp [handle_sys_return, piTable, getRec, hp', hst, AddNewByPPID, findNewByPPID,
          hch, hnew, updRec, setAsid, alookup_aset, hne, hne']
  · simp [handle_sys_return, piTable, getRec, hp', hst, AddNewByPPID, findNewByPPID]
  · intro hch hnew hnc hca
    have hne : hc.taskd ≠ h.taskd := by
      intro hx
      rw [hx, hp'] at hnew
      exact Option.noConfusion hnew
    have hne' : h.taskd ≠ hc.taskd := fun hx => hne hx.symm
    simp [asid_changed_linux, piTable, getRec, hp', hst, save_state, acCLN, AddNewByPPID,
          findNewByPPID, hch, hnew, hnc, hca, updRec, setAsid, alookup_aset, hne, hne', hph,
          piExists, cbStartRec, cbStartOut, freshRec]
  · intro hnc hm htk hq
    have hq' : alookup tk e.lpt.ps = some q := hq
    simp [asid_changed_linux, piTable, getRec, hp', hst, save_state, acCLN, AddNewByPPID,
          findNewByPPID, acCLNfallback, hnc, hm, htk, hq', updRec, alookup_aset, hph,
          piExists]

/-- Witness for C1: P1 mid-clone; the clone child CLh is found at the
syscall-return. -/
theorem c1_witness :
    (handle_sys_return
        (runEvents (engInit [P1h]) [evP1Run, Event.sysEnter P1h Sysc.clone]).1
        P1h Sysc.clone [CLh]).fatal = false ∧
    (handle_sys_return
        (runEvents (engInit [P1h]) [evP1Run, Event.sysEnter P1h Sysc.clone]).1
        P1h Sysc.clone [CLh]).out = [Notif.started CLh] ∧
    getRec (handle_sys_return
        (runEvents (engInit [P1h]) [evP1Run, Event.sysEnter P1h Sysc.clone]).1
        P1h Sysc.clone [CLh]).eng.lpt 1 =
      some ⟨P1h, St.RUN, St.RUN, none, none, true⟩ := by
  have hx := (c1_child_materialization
      (runEvents (engInit [P1h]) [evP1Run, Event.sysEnter P1h Sysc.clone]).1
      P1h CLh ⟨P1h, St.CLN, St.RUN, none, none, true⟩
      ⟨P1h, St.CLN, St.RUN, none, none, true⟩ 0 0 Sysc.clone
      (by decide) (by decide) (by decide)).1 (by decide) (by decide)
  exact ⟨hx.1, hx.2.1, hx.2.2.2.1⟩

/-! Claim C7 — the fork-link invariant I2. -/

/-- A record holds at most one open fork link: it is never simultaneously
a linked vfork parent and a linked vfork child. -/
def LinkOK (p : ProcessRecord) : Prop := p.vforkp = none ∨ p.vforkc = none

/-- Every record in the table holds at most one open fork link. -/
def TableOK (t : LPTracker) : Prop := ∀ x ∈ t.ps, LinkOK x.2

theorem mem_aset {α : Type} (k : Nat) (v : α) (l : List (Nat × α)) (x : Nat × α)
    (hx : x ∈ aset k v l) : x = (k, v) ∨ x ∈ l := by
  induction l with
  | nil =>
      simp [aset] at hx
      left
      exact hx
  | cons kv rest ih =>
      obtain ⟨a, b⟩ := kv
      by_cases h1 : k = a
      · rw [aset, if_pos h1] at hx
        rcases List.mem_cons.mp hx with hx' | hx'
        · left
          exact hx'
        · right
          exact List.mem_cons_of_mem _ hx'
      · rw [aset, if_neg h1] at hx
        rcases List.mem_cons.mp hx with hx' | hx'
        · right
          rw [hx']
          exact List.mem_cons_self _ _
        · rcases ih hx' with hx2 | hx2
          · left
            exact hx2
          · right
            exact List.mem_cons_of_mem _ hx2

theorem alookup_mem {α : Type} (k : Nat) (v : α) (l : List (Nat × α))
    (h : alookup k l = some v) : (k, v) ∈ l := by
  induction l with
  | nil => simp [alookup] at h
  | cons kv rest ih =>
      obtain ⟨a, b⟩ := kv
      by_cases h1 : k = a
      · rw [alookup, if_pos h1] at h
        cases h
        rw [h1]
        exact List.mem_cons_self _ _
      · rw [alookup, if_neg h1] at h
        exact List.mem_cons_of_mem _ (ih h)

theorem findPid_mem (pid : Int) (l : List (Nat × ProcessRecord)) (k : Nat)
    (q : ProcessRecord) (h : findPid pid l = some (k, q)) : (k, q) ∈ l := by
  induction l with
  | nil => simp [findPid] at h
  | cons kv rest ih =>
      obtain ⟨a, b⟩ := kv
      by_cases h1 : b.handle.pid = pid
      · rw [findPid, if_pos h1] at h
        cases h
        exact List.mem_cons_self _ _
      · rw [findPid, if_neg h1] at h
        exact List.mem_cons_of_mem _ (ih h)

theorem tableOK_lookup (t : LPTracker) (k : Nat) (q : ProcessRecord)
    (ht : TableOK t) (h : alookup k t.ps = some q) : LinkOK q :=
  ht (k, q) (alookup_mem k q t.ps h)

theorem tableOK_updRec (t : LPTracker) (k : Nat) (p : ProcessRecord)
    (ht : TableOK t) (hp : LinkOK p) : TableOK (updRec t k p) := by
  intro x hx
  rcases mem_aset k p t.ps x hx with h | h
  · rw [h]
    exact hp
  · exact ht x h

theorem linkOK_cbStartRec (p : ProcessRecord) (hp : LinkOK p) : LinkOK (cbStartRec p) := by
  unfold cbStartRec
  split
  · exact hp
  · exact hp

theorem tableOK_piTable (t : LPTracker) (h : ProcessHandle) (ht : TableOK t) :
    TableOK (piTable t h) := by
  unfold piTable
  split
  · exact ht
  · exact tableOK_updRec t h.taskd (freshRec h) ht (Or.inl rfl)

theorem tableOK_AddNewByPPID (t : LPTracker) (ppid : Int) (os : List ProcessHandle)
    (ck : Nat) (t2 : LPTracker) (ns : List Notif)
    (ht : TableOK t) (h : AddNewByPPID t ppid os = some (ck, t2, ns)) : TableOK t2 := by
  cases hf : findNewByPPID t ppid os with
  | none => simp [AddNewByPPID, hf] at h
  | some hh =>
      simp only [AddNewByPPID, hf, Option.some.injEq, Prod.mk.injEq] at h
      rw [← h.2.1]
      exact tableOK_updRec t hh.taskd _ ht (Or.inl rfl)

theorem tableOK_AddNewByASID (t : LPTracker) (o : Option ProcessHandle)
    (ht : TableOK t) : TableOK (AddNewByASID t o).2 := by
  unfold AddNewByASID
  split
  · exact ht
  · split
    · exact ht
    · exact tableOK_updRec t _ _ ht (Or.inl rfl)

theorem tableOK_handle_kill_return (e : Engine) (h : ProcessHandle) (pid sig ret : Int)
    (ht : TableOK e.lpt) : TableOK (handle_kill_return e h pid sig ret).eng.lpt := by
  unfold handle_kill_return
  have htp := tableOK_piTable e.lpt h ht
  dsimp only
  split
  · exact ht
  · split
    · exact ht
    · split
      · split
        · exact htp
        · rename_i tk q heq
          have hq : LinkOK q := htp (tk, q) (findPid_mem pid _ tk q heq)
          exact tableOK_updRec _ tk _ htp hq
      · exact htp

theorem tableOK_handleVforkReturn (e : Engine) (t : LPTracker) (pex : Bool)
    (h : ProcessHandle) (p : ProcessRecord) (sc : Sysc)
    (ht : TableOK t) (hp : LinkOK p) : TableOK (handleVforkReturn e t pex h p sc).eng.lpt := by
  unfold handleVforkReturn
  dsimp only
  repeat' split
  all_goals first
    | exact ht
    | exact tableOK_updRec _ _ _ ht (Or.inl rfl)
    | exact tableOK_updRec _ _ _ ht hp
    | exact tableOK_updRec _ _ _
        (tableOK_updRec _ _ _ (tableOK_updRec _ _ _ ht (Or.inl rfl)) (Or.inr rfl))
        (Or.inl rfl)
    | exact tableOK_updRec _ _ _
        (tableOK_updRec _ _ _ (tableOK_updRec _ _ _ ht hp) (Or.inr rfl))
        (Or.inl rfl)

theorem tableOK_handle_sys_return (e : Engine) (h : ProcessHandle) (sc : Sysc)
    (os : List ProcessHandle) (ht : TableOK e.lpt) :
    TableOK (handle_sys_return e h sc os).eng.lpt := by
  unfold handle_sys_return
  have htp := tableOK_piTable e.lpt h ht
  dsimp only
  split
  · exact htp
  · rename_i p heq
    have hp : LinkOK p := tableOK_lookup _ _ _ htp heq
    split
    · split
      · rename_i ck t2 ns heq2
        have ht2 := tableOK_AddNewByPPID _ _ _ _ _ _ htp heq2
        exact tableOK_updRec _ _ _ ht2 hp
      · exact htp
    · exact tableOK_handleVforkReturn e _ _ h p sc htp hp
    · exact tableOK_handleVforkReturn e _ _ h p sc htp hp
    · exact htp

theorem tableOK_seNormal (e : Engine) (t : LPTracker) (k : Nat) (p : ProcessRecord)
    (sc : Sysc) (ht : TableOK t) (hp : LinkOK p) : TableOK (seNormal e t k p sc).eng.lpt := by
  unfold seNormal
  try dsimp only
  repeat' split
  all_goals first
    | exact ht
    | exact tableOK_updRec _ _ _ ht hp
    | exact tableOK_updRec _ _ _ ht (linkOK_cbStartRec p hp)

theorem tableOK_seVFP (e : Engine) (t : LPTracker) (k : Nat) (p : ProcessRecord)
    (sc : Sysc) (ht : TableOK t) (hp : LinkOK p) : TableOK (seVFP e t k p sc).eng.lpt := by
  unfold seVFP
  dsimp only
  split
  · exact ht
  · split
    · exact ht
    · split
      · exact ht
      · rename_i c0 heq
        have hc0 : LinkOK c0 := tableOK_lookup _ _ _ ht heq
        repeat' split
        all_goals first
          | exact tableOK_updRec _ _ _ ht hc0
          | exact tableOK_updRec _ _ _ (tableOK_updRec _ _ _ ht hc0) hp
          | exact tableOK_updRec _ _ _ (tableOK_updRec _ _ _ ht hc0) (Or.inl rfl)

theorem tableOK_seVFC (e : Engine) (t : LPTracker) (k : Nat) (p : ProcessRecord)
    (sc : Sysc) (ht : TableOK t) (hp : LinkOK p) : TableOK (seVFC e t k p sc).eng.lpt := by
  unfold seVFC
  try dsimp only
  repeat' split
  all_goals first
    | exact ht
    | exact tableOK_updRec _ _ _ ht hp
    | exact tableOK_updRec _ _ _ (tableOK_updRec _ _ _ ht hp) hp

theorem tableOK_seEXE (e : Engine) (t : LPTracker) (k : Nat) (p : ProcessRecord)
    (sc : Sysc) (ht : TableOK t) (hp : LinkOK p) : TableOK (seEXE e t k p sc).eng.lpt := by
  unfold seEXE
  try dsimp only
  repeat' split
  all_goals first
    | exact ht
    | exact tableOK_updRec _ _ _ ht hp

theorem tableOK_handle_sys_enter (e : Engine) (h : ProcessHandle) (sc : Sysc)
    (ht : TableOK e.lpt) : TableOK (handle_sys_enter e h sc).eng.lpt := by
  unfold handle_sys_enter
  have htp := tableOK_piTable e.lpt h ht
  dsimp only
  split
  · exact htp
  · rename_i p0 heq
    have hp0 : LinkOK p0 := tableOK_lookup _ _ _ htp heq
    have hp : LinkOK (save_state p0) := hp0
    have ht1 := tableOK_updRec (piTable e.lpt h) h.taskd (save_state p0) htp hp
    split
    · exact tableOK_seNormal _ _ _ _ _ ht1 hp
    · exact tableOK_seNormal _ _ _ _ _ ht1 hp
    · exact tableOK_seNormal _ _ _ _ _ ht1 hp
    · exact tableOK_seVFP _ _ _ _ _ ht1 hp
    · exact tableOK_seVFC _ _ _ _ _ ht1 hp
    · exact tableOK_seEXE _ _ _ _ _ ht1 hp
    · exact ht1

theorem tableOK_acKERN (t : LPTracker) (next : Nat) (byAsid : Option ProcessHandle)
    (ht : TableOK t) : TableOK (acKERN t next byAsid).1 := by
  unfold acKERN
  try dsimp only
  split
  · split
    · exact ht
    · exact ht
  · split
    · rename_i t1 heq
      have hx := tableOK_AddNewByASID t byAsid ht
      rw [heq] at hx
      exact hx
    · rename_i nk t1 heq
      have ht1 : TableOK t1 := by
        have hx := tableOK_AddNewByASID t byAsid ht
        rw [heq] at hx
        exact hx
      split
      · exact ht1
      · rename_i pn heq2
        have hpn : LinkOK pn := tableOK_lookup _ _ _ ht1 heq2
        split
        · exact ht1
        · split
          · exact ht1
          · rename_i park par heq3
            have hpar : LinkOK par := ht1 (park, par) (findPid_mem _ _ _ _ heq3)
            split
            · exact tableOK_updRec _ _ _ (tableOK_updRec _ _ _ ht1 hpar)
                (linkOK_cbStartRec pn hpn)
            · exact ht1

theorem tableOK_acCLNfallback (t : LPTracker) (next : Nat) (byAsid : Option ProcessHandle)
    (acc : List Notif) (ht : TableOK t) : TableOK (acCLNfallback t next byAsid acc).1 := by
  unfold acCLNfallback
  try dsimp only
  split
  · split
    · exact ht
    · exact ht
  · exact tableOK_AddNewByASID t byAsid ht

theorem tableOK_acCLN (t : LPTracker) (k : Nat) (p : ProcessRecord) (current next : Nat)
    (os : List ProcessHandle) (byAsid : Option ProcessHandle)
    (ht : TableOK t) (hp : LinkOK p) : TableOK (acCLN t k p current next os byAsid).1 := by
  unfold acCLN
  try dsimp only
  split
  · exact ht
  · split
    · rename_i ck t1 ns heq
      have ht1 := tableOK_AddNewByPPID _ _ _ _ _ _ ht heq
      have ht2 := tableOK_updRec t1 k { p with state := St.RUN } ht1 hp
      split
      · exact ht2
      · rename_i crec heq2
        have hcrec : LinkOK crec := tableOK_lookup _ _ _ ht2 heq2
        have ht3 := tableOK_updRec _ ck (cbStartRec crec) ht2 (linkOK_cbStartRec crec hcrec)
        split
        · exact ht3
        · exact tableOK_acCLNfallback _ _ _ _ ht3
    · exact tableOK_acCLNfallback _ _ _ _ ht

theorem tableOK_acEXE (t : LPTracker) (k : Nat) (p : ProcessRecord) (h : ProcessHandle)
    (current next : Nat) (ht : TableOK t) : TableOK (acEXE t k p h current next).1 := by
  unfold acEXE
  try dsimp only
  repeat' split
  all_goals first
    | exact ht
    | exact tableOK_updRec _ _ _ (tableOK_updRec _ _ _ ht (Or.inl rfl))
        (linkOK_cbStartRec _ (Or.inl rfl))
    | exact tableOK_updRec _ _ _
        (tableOK_updRec _ _ _ (tableOK_updRec _ _ _ ht (Or.inl rfl)) (Or.inl rfl))
        (linkOK_cbStartRec _ (Or.inl rfl))

theorem tableOK_acEND (t : LPTracker) (k : Nat) (p : ProcessRecord) (h : ProcessHandle)
    (next : Nat) (ht : TableOK t) : TableOK (acEND t k p h next).1 := by
  unfold acEND
  try dsimp only
  repeat' split
  all_goals first
    | exact ht
    | exact tableOK_updRec _ _ _ ht (Or.inl rfl)

theorem tableOK_acDefault2 (t : LPTracker) (p : ProcessRecord) (next : Nat)
    (byAsid : Option ProcessHandle) (acc : List Notif)
    (ht : TableOK t) : TableOK (acDefault2 t p next byAsid acc).1 := by
  unfold acDefault2
  try dsimp only
  split
  · split
    · exact ht
    · exact ht
  · split
    · exact ht
    · exact tableOK_AddNewByASID t byAsid ht

theorem tableOK_acDefault (t : LPTracker) (k : Nat) (p : ProcessRecord) (next : Nat)
    (byAsid : Option ProcessHandle)
    (ht : TableOK t) (hp : LinkOK p) : TableOK (acDefault t k p next byAsid).1 := by
  unfold acDefault
  try dsimp only
  split
  · split
    · exact tableOK_acDefault2 _ _ _ _ _ (tableOK_updRec _ _ _ ht hp)
    · exact tableOK_updRec _ _ _ ht hp
  · exact tableOK_acDefault2 _ _ _ _ _ ht

theorem tableOK_asid_changed_linux (e : Engine) (h : ProcessHandle) (current next : Nat)
    (os : List ProcessHandle) (byAsid : Option ProcessHandle)
    (ht : TableOK e.lpt) : TableOK (asid_changed_linux e h current next os byAsid).eng.lpt := by
  unfold asid_changed_linux
  have htp := tableOK_piTable e.lpt h ht
  dsimp only
  split
  · exact htp
  · rename_i p0 heq
    have hp0 : LinkOK p0 := tableOK_lookup _ _ _ htp heq
    have hp : LinkOK (save_state p0) := hp0
    have ht1 := tableOK_updRec (piTable e.lpt h) h.taskd (save_state p0) htp hp
    split
    · exact htp
    · split
      · exact tableOK_acKERN _ _ _ ht1
      · exact tableOK_acCLN _ _ _ _ _ _ _ ht1 hp
      · exact tableOK_acEXE _ _ _ _ _ _ ht1
      · exact tableOK_acEND _ _ _ _ _ ht1
      · exact tableOK_acDefault _ _ _ _ _ ht1 hp

/-- Per-event preservation: at most one open fork link per record. -/
theorem tableOK_step (e : Engine) (ev : Event) (ht : TableOK e.lpt) :
    TableOK (step e ev).eng.lpt := by
  cases ev with
  | sysEnter h sc => exact tableOK_handle_sys_enter e h sc ht
  | sysReturn h sc os => exact tableOK_handle_sys_return e h sc os ht
  | killReturn h pid sig ret => exact tableOK_handle_kill_return e h pid sig ret ht
  | asidChange h cur nxt os byAsid => exact tableOK_asid_changed_linux e h cur nxt os byAsid ht

theorem tableOK_lptInit (live : List ProcessHandle) : TableOK (lptInit live) := by
  unfold lptInit
  have hgen : ∀ l : List ProcessHandle, ∀ t : LPTracker, TableOK t →
      TableOK (l.foldl (fun t h => setAsid (updRec t h.taskd (freshRec h)) h.asid h.taskd) t) := by
    intro l
    induction l with
    | nil =>
        intro t ht
        exact ht
    | cons hh rest ih =>
        intro t ht
        exact ih _ (tableOK_updRec _ _ _ ht (Or.inl rfl))
  refine hgen live ⟨[], []⟩ ?_
  intro x hx
  simp at hx

/-- Fixture engine: the state after P1 vforks, the child execs, and the
parent is resolved out of VFP by an ordinary syscall — the child still
holds its back-link. -/
def engDangling : Engine :=
  (runEvents (engInit [P1h])
    [evP1Run, evVfRet, evChExec, Event.sysEnter P1h (Sysc.other 7)]).1

/-- C7 counterexample: a state reachable through non-fatal dispatcher
events in which the child record (key 2) still carries an open fork-parent
link naming record 1, while record 1 carries no fork-child link back —
refuting the claimed iff of invariant I2. -/
theorem c7_counterexample :
    Reachable engDangling ∧
    (getRec engDangling.lpt 2).map ProcessRecord.vforkp = some (some 1) ∧
    (getRec engDangling.lpt 1).map ProcessRecord.vforkc = some none := by
  refine ⟨?_, by decide, by decide⟩
  have h0 : Reachable (engInit [P1h]) := Reachable.init [P1h]
  have h1 := Reachable.evstep _ evP1Run h0 (by decide)
  have h2 := Reachable.evstep _ evVfRet h1 (by decide)
  have h3 := Reachable.evstep _ evChExec h2 (by decide)
  have h4 := Reachable.evstep _ (Event.sysEnter P1h (Sysc.other 7)) h3 (by decide)
  exact h4

/-- C7 (amended): the half of invariant I2 that does hold in every state
reachable by any sequence of non-fatal dispatcher events: no record ever
has more than one open fork partner (never simultaneously an open
fork-parent link and an open fork-child link).  The mutual-iff half is
refuted by the counterexample: resolving a VFP parent clears only the
parent's links, leaving the child's back-link dangling until its exec
resolution. -/
theorem c7_link_invariant_amended (e : Engine) (he : Reachable e) : TableOK e.lpt := by
  induction he with
  | init live => exact tableOK_lptInit live
  | evstep e' ev hr hf ih => exact tableOK_step e' ev ih

/-- Witness for C7: the invariant at a concretely reachable state. -/
theorem c7_witness : TableOK engDangling.lpt := by
  refine c7_link_invariant_amended engDangling ?_
  have h0 : Reachable (engInit [P1h]) := Reachable.init [P1h]
  have h1 := Reachable.evstep _ evP1Run h0 (by decide)
  have h2 := Reachable.evstep _ evVfRet h1 (by decide)
  have h3 := Reachable.evstep _ evChExec h2 (by decide)
  exact Reachable.evstep _ (Event.sysEnter P1h (Sysc.other 7)) h3 (by decide)

end OsiPse
